import Mathlib

/-!
Shallow embedding of the windows-properties-system crate (src/lib.rs): the
variant codec (FromPropVariant / ToPropVariant), the property-store session
lifecycle (FileProperties::new / Drop), and the get/set/commit pipeline.

Modelling conventions:
* Rust strings are lists of Unicode scalar values (`RStr`); host wide strings
  are lists of UTF-16 code units (`WStr`).  `utf16Decode` models
  String::from_utf16 (fails on unpaired surrogates, as PWSTR::to_string does);
  `utf16Encode` models the UTF-16 encoding performed by HSTRING::from.
* Host (CoTaskMem) allocations live in an explicit arena `Heap`.  Freeing marks
  a cell dead; reading a dead cell yields unspecified residual contents,
  modelled by an explicit parameter `scrub : WStr -> WStr` (identity means the
  memory still holds its old bytes; other values model reuse by the allocator).
  The same convention models the encoders' dangling reads of dropped HSTRING
  temporaries: the host constructor receives `scrub` of the encoded code units.
  `rustFreed` counts host cells deallocated through the Rust global allocator
  (an allocator mismatch), `badFrees` counts frees of dead or unknown cells.
* Host API calls that can fail (CoInitializeEx, CreateBindCtx,
  SHGetPropertyStoreFromParsingName, InitPropVariantFromStringAsVector,
  PropVariantToStringVectorAlloc, PSCoerceToCanonicalValue, SetValue, ...)
  take an explicit boolean (or function) describing the host outcome; the
  embedding is quantified over those outcomes.
* A Rust panic (a failed .unwrap()) is the `Outcome.panicked` result; it is
  distinct from a returned `Except.error`.
-/

abbrev RStr : Type := List Nat
abbrev WStr : Type := List Nat

/-- Result of a Rust computation that may panic (a failed unwrap). -/
inductive Outcome (α : Type) where
  | ok (a : α)
  | panicked
deriving DecidableEq, Repr

def isHighSurrogate (u : Nat) : Bool := 0xD800 ≤ u && u < 0xDC00

def isLowSurrogate (u : Nat) : Bool := 0xDC00 ≤ u && u < 0xE000

/-- String::from_utf16: decodes UTF-16 code units to scalar values, failing on
any unpaired surrogate (this is what PWSTR::to_string does internally). -/
def utf16Decode : WStr → Option RStr
  | [] => some []
  | u :: rest =>
    if isHighSurrogate u then
      match rest with
      | [] => none
      | v :: rest2 =>
        if isLowSurrogate v then
          (utf16Decode rest2).map
            (fun t => (0x10000 + (u - 0xD800) * 0x400 + (v - 0xDC00)) :: t)
        else none
    else if isLowSurrogate u then none
    else (utf16Decode rest).map (fun t => u :: t)

/-- UTF-16 encoding of one scalar value (surrogate pair above 0xFFFF). -/
def utf16EncodeChar (c : Nat) : WStr :=
  if c < 0x10000 then [c]
  else [0xD800 + (c - 0x10000) / 0x400, 0xDC00 + (c - 0x10000) % 0x400]

/-- HSTRING::from / as_wide: UTF-16 encoding of a Rust string. -/
def utf16Encode (s : RStr) : WStr :=
  s.foldr (fun c acc => utf16EncodeChar c ++ acc) []

/-- Contents of one host-allocated block: a wide string or an array of
pointers (addresses) to other blocks. -/
inductive HeapData where
  | wstr (w : WStr)
  | parr (ps : List Nat)
deriving DecidableEq, Repr

structure HeapCell where
  data : HeapData
  live : Bool
deriving DecidableEq, Repr

/-- Arena of host (CoTaskMem) allocations.  `rustFreed` counts host blocks
deallocated through the Rust allocator (a mismatch), `badFrees` counts frees
of already-dead or unknown addresses. -/
structure Heap where
  cells : List HeapCell
  rustFreed : Nat
  badFrees : Nat
deriving DecidableEq, Repr

def Heap.empty : Heap := ⟨[], 0, 0⟩

def Heap.alloc (h : Heap) (d : HeapData) : Heap × Nat :=
  ({ h with cells := h.cells ++ [⟨d, true⟩] }, h.cells.length)

/-- CoTaskMemFree (also used for the frees performed by PropVariantClear). -/
def Heap.free (h : Heap) (a : Nat) : Heap :=
  match h.cells[a]? with
  | some c =>
    if c.live then { h with cells := h.cells.set a ⟨c.data, false⟩ }
    else { h with badFrees := h.badFrees + 1 }
  | none => { h with badFrees := h.badFrees + 1 }

/-- Deallocation of a host block through the Rust global allocator (what
dropping a Vec built by Vec::from_raw_parts over a CoTaskMem array does). -/
def Heap.freeRust (h : Heap) (a : Nat) : Heap :=
  match h.cells[a]? with
  | some c =>
    if c.live then
      { h with cells := h.cells.set a ⟨c.data, false⟩, rustFreed := h.rustFreed + 1 }
    else { h with badFrees := h.badFrees + 1 }
  | none => { h with badFrees := h.badFrees + 1 }

def HeapData.asW : HeapData → WStr
  | .wstr w => w
  | .parr _ => []

/-- Contents of a live wide-string cell (empty for anything else); used for
reads the host itself performs on memory it knows to be live. -/
def Heap.liveW (h : Heap) (a : Nat) : WStr :=
  match h.cells[a]? with
  | some c => if c.live then c.data.asW else []
  | none => []

/-- The PROPVARIANT tagged union, restricted to the shapes this crate
exercises: VT_EMPTY, VT_LPWSTR (a pointer to a host wide string), VT_UI4, and
VT_VECTOR|VT_LPWSTR (a pointer to a host array of pointers to host wide
strings). -/
inductive PROPVARIANT where
  | empty
  | lpwstr (a : Nat)
  | ui4 (n : Nat)
  | strVec (arr : Nat) (elems : List Nat)
deriving DecidableEq, Repr

/-- A PWSTR as produced by PropVariantToStringWithDefault: either the static
default constant (the crate passes the static empty string w!("")) or an
interior pointer into a heap block. -/
inductive PWSTRval where
  | staticEmpty
  | heapPtr (a : Nat)
deriving DecidableEq, Repr

/-- PWSTR::to_string-style read through a possibly dangling pointer: a live
cell yields its contents; a dead or unknown cell yields unspecified residual
contents, modelled by `scrub` applied to the old contents. -/
def pwstrRead (scrub : WStr → WStr) (h : Heap) : PWSTRval → WStr
  | .staticEmpty => []
  | .heapPtr a =>
    match h.cells[a]? with
    | some c => if c.live then c.data.asW else scrub c.data.asW
    | none => scrub []

/-- PropVariantToStringWithDefault: for VT_LPWSTR it returns the variant's
interior string pointer; for every other tag it returns the supplied default
(the crate's static empty string).  It allocates nothing. -/
def propVariantToStringWithDefault : PROPVARIANT → PWSTRval
  | .lpwstr a => .heapPtr a
  | _ => .staticEmpty

/-- Decimal parse used to model the numeric coercion PropVariantToUInt32 may
apply to a VT_LPWSTR payload. -/
def parseDec (w : WStr) : Option Nat :=
  if w ≠ [] && w.all (fun c => 0x30 ≤ c && c ≤ 0x39) then
    some (w.foldl (fun acc c => acc * 10 + (c - 0x30)) 0)
  else none

/-- PropVariantToUInt32WithDefault: the stored value for VT_UI4, a parsed
decimal for a VT_LPWSTR with a numeric payload, the default otherwise. -/
def propVariantToUInt32WithDefault (h : Heap) (pv : PROPVARIANT) (d : Nat) : Nat :=
  match pv with
  | .ui4 n => n % 2 ^ 32
  | .lpwstr a => ((parseDec (h.liveW a)).map (fun n => n % 2 ^ 32)).getD d
  | _ => d

/-- PropVariantClear: frees the variant's host-allocated payload (the string
for VT_LPWSTR; each element then the backing array for VT_VECTOR|VT_LPWSTR)
and leaves the variant empty.  For the variant shapes this crate produces the
call succeeds. -/
def propVariantClear (pv : PROPVARIANT) (h : Heap) : Heap :=
  match pv with
  | .empty => h
  | .ui4 _ => h
  | .lpwstr a => h.free a
  | .strVec arr elems => (elems.foldl (fun hc a => hc.free a) h).free arr

/-- PropVariantToStringVectorAlloc: when the host call succeeds and the
variant has a string-vector representation, CoTaskMem-allocates a fresh copy
of each element string plus a fresh backing array of pointers, returning the
array address, the element addresses and the new heap; `none` models both a
host allocation failure (`allocOk = false`) and a variant with no
string-vector representation. -/
def propVariantToStringVectorAlloc (allocOk : Bool) (pv : PROPVARIANT)
    (h : Heap) : Option (Nat × List Nat × Heap) :=
  if allocOk then
    match pv with
    | .strVec _ elems =>
      let copies := elems.map (fun a => h.liveW a)
      let step := copies.foldl
        (fun (acc : Heap × List Nat) w =>
          let (h1, a1) := acc.1.alloc (.wstr w)
          (h1, acc.2 ++ [a1])) (h, [])
      let (h2, arr) := step.1.alloc (.parr step.2)
      some (arr, step.2, h2)
    | .lpwstr a =>
      let (h1, a1) := h.alloc (.wstr (h.liveW a))
      let (h2, arr) := h1.alloc (.parr [a1])
      some (arr, [a1], h2)
    | _ => none
  else none

/-- Decode environment: the host behaviours a decode can observe.  `scrub` is
the residual-contents function for reads of freed memory; `vecAllocOk` is the
outcome of the host's PropVariantToStringVectorAlloc allocation. -/
structure DecodeEnv where
  scrub : WStr → WStr
  vecAllocOk : Bool

/-- impl FromPropVariant for String (src/lib.rs lines 18-26):
obtains the string pointer via PropVariantToStringWithDefault, then clears the
variant (freeing the payload the pointer refers to), then reads the pointer
with PWSTR::to_string, defaulting to the empty string when the UTF-16 is
invalid (to_string().unwrap_or("")).  Note the read happens after the clear,
exactly as in the source.  PropVariantClear succeeds on the variant shapes in
scope, so the .unwrap() on it never panics in this model. -/
def stringFromPropVariant (scrub : WStr → WStr) (prop : PROPVARIANT)
    (h : Heap) : RStr × Heap :=
  let p := propVariantToStringWithDefault prop
  let h1 := propVariantClear prop h
  let w := pwstrRead scrub h1 p
  ((utf16Decode w).getD [], h1)

/-- impl FromPropVariant for u32 (src/lib.rs lines 28-36): reads the value
via PropVariantToUInt32WithDefault (default 0), then clears the variant. -/
def u32FromPropVariant (prop : PROPVARIANT) (h : Heap) : Nat × Heap :=
  let v := propVariantToUInt32WithDefault h prop 0
  let h1 := propVariantClear prop h
  (v, h1)

/-- pub struct PropVector { pub vector: Vec<String> } -/
structure PropVector where
  vector : List RStr
deriving DecidableEq, Repr

/-- The element loop of the PropVector decode: for each pointer in the
host-allocated array, x.to_string().unwrap() (panics on invalid UTF-16, with
the backing array then deallocated through the Rust allocator as the
Vec::from_raw_parts vector is dropped during unwind), then CoTaskMemFree(x).
After the loop the backing array is deallocated through the Rust allocator
(the Vec::from_raw_parts vector going out of scope). -/
def propVectorLoop (scrub : WStr → WStr) (arr : Nat) :
    List Nat → Heap → List RStr → Outcome PropVector × Heap
  | [], h, acc => (.ok ⟨acc⟩, h.freeRust arr)
  | a :: rest, h, acc =>
    match utf16Decode (pwstrRead scrub h (.heapPtr a)) with
    | none => (.panicked, h.freeRust arr)
    | some s => propVectorLoop scrub arr rest (h.free a) (acc ++ [s])

/-- impl FromPropVariant for PropVector (src/lib.rs lines 80-104): calls
PropVariantToStringVectorAlloc; on failure returns the empty vector at once
(without clearing the received variant); on success copies each element out
(panicking on invalid UTF-16), CoTaskMemFrees each element, and lets the
Vec::from_raw_parts vector deallocate the backing array through the Rust
allocator.  The received variant is never cleared on any path. -/
def propVectorFromPropVariant (env : DecodeEnv) (prop : PROPVARIANT)
    (h : Heap) : Outcome PropVector × Heap :=
  match propVariantToStringVectorAlloc env.vecAllocOk prop h with
  | none => (.ok ⟨[]⟩, h)
  | some (arr, elems, h1) => propVectorLoop env.scrub arr elems h1 []

/-- pub trait FromPropVariant (src/lib.rs lines 14-16). -/
class FromPropVariant (α : Type) where
  from_prop_variant : DecodeEnv → PROPVARIANT → Heap → Outcome α × Heap

instance instFromPropVariantString : FromPropVariant RStr where
  from_prop_variant env prop h :=
    let r := stringFromPropVariant env.scrub prop h
    (.ok r.1, r.2)

instance instFromPropVariantU32 : FromPropVariant Nat where
  from_prop_variant _ prop h :=
    let r := u32FromPropVariant prop h
    (.ok r.1, r.2)

instance instFromPropVariantVector : FromPropVariant PropVector where
  from_prop_variant env prop h := propVectorFromPropVariant env prop h

/-- InitPropVariantFromStringAsVector: when the host constructor succeeds it
builds a VT_VECTOR|VT_LPWSTR variant holding one freshly allocated copy of the
wide string plus its backing array; `none` models the host call failing. -/
def initPropVariantFromStringAsVector (ctorOk : Bool) (w : WStr) (h : Heap) :
    Option PROPVARIANT × Heap :=
  if ctorOk then
    let (h1, e) := h.alloc (.wstr w)
    let (h2, arr) := h1.alloc (.parr [e])
    (some (.strVec arr [e]), h2)
  else (none, h)

/-- InitPropVariantFromStringVector: as above for a list of wide strings. -/
def initPropVariantFromStringVector (ctorOk : Bool) (ws : List WStr)
    (h : Heap) : Option PROPVARIANT × Heap :=
  if ctorOk then
    let step := ws.foldl
      (fun (acc : Heap × List Nat) w =>
        let (h1, a1) := acc.1.alloc (.wstr w)
        (h1, acc.2 ++ [a1])) (h, [])
    let (h2, arr) := step.1.alloc (.parr step.2)
    (some (.strVec arr step.2), h2)
  else (none, h)

/-- impl ToPropVariant for String (src/lib.rs lines 42-49): encodes the
string to UTF-16 (HSTRING::from) and calls
InitPropVariantFromStringAsVector(...).unwrap() — a host constructor failure
is a panic, since the trait method returns a bare PROPVARIANT.
The HSTRING built in the let initializer is a temporary dropped at the end of
that statement (PCWSTR::from_raw extends no lifetime), so the pointer handed
to the constructor dangles into a freed buffer: the code units the host
actually reads are the buffer's residual contents, scrub (utf16Encode v). -/
def stringToPropVariant (scrub : WStr → WStr) (ctorOk : Bool) (v : RStr)
    (h : Heap) : Outcome PROPVARIANT × Heap :=
  match initPropVariantFromStringAsVector ctorOk (scrub (utf16Encode v)) h with
  | (some pv, h1) => (.ok pv, h1)
  | (none, h1) => (.panicked, h1)

/-- impl ToPropVariant for &str (src/lib.rs lines 51-58): identical to the
String impl after self.to_string(), including the dangling pointer to the
dropped HSTRING temporary. -/
def strToPropVariant (scrub : WStr → WStr) (ctorOk : Bool) (v : RStr)
    (h : Heap) : Outcome PROPVARIANT × Heap :=
  match initPropVariantFromStringAsVector ctorOk (scrub (utf16Encode v)) h with
  | (some pv, h1) => (.ok pv, h1)
  | (none, h1) => (.panicked, h1)

/-- impl ToPropVariant for Vec<&str> (src/lib.rs lines 60-74): encodes each
element to UTF-16 and calls InitPropVariantFromStringVector(...).unwrap().
Each element's HSTRING is a temporary dropped at the end of its push
statement, so every pointer in the slice dangles by the time the constructor
reads it: the host sees each element's residual contents. -/
def vecStrToPropVariant (scrub : WStr → WStr) (ctorOk : Bool) (ws : List RStr)
    (h : Heap) : Outcome PROPVARIANT × Heap :=
  match initPropVariantFromStringVector ctorOk
      (ws.map (fun e => scrub (utf16Encode e))) h with
  | (some pv, h1) => (.ok pv, h1)
  | (none, h1) => (.panicked, h1)

/-- pub trait ToPropVariant (src/lib.rs lines 38-40).  The first argument is
the freed-memory residue function observed through the encoders' dangling
HSTRING pointers, the second the host constructor outcome. -/
class ToPropVariant (α : Type) where
  to_prop_variant : (WStr → WStr) → Bool → α → Heap → Outcome PROPVARIANT × Heap

instance instToPropVariantString : ToPropVariant RStr where
  to_prop_variant := stringToPropVariant

instance instToPropVariantVecStr : ToPropVariant (List RStr) where
  to_prop_variant := vecStrToPropVariant

/-- Resource-relevant host events, in the order they occur.  Acquisitions and
releases only; failed host calls acquire nothing and record nothing. -/
inductive HostEvt where
  | coInit
  | coUninit
  | createBindCtx
  | releaseBindCtx
  | releaseBoundObjects
  | openStore
  | releaseStore
deriving DecidableEq, Repr

/-- The error cases FileProperties::new can return (std::io::Error in the
source: ErrorKind::NotFound from the explicit check, otherwise the host
error of whichever call failed, converted through the question-mark
operator). -/
inductive OpenError where
  | notFound
  | coInitFailed
  | bindCtxFailed
  | storeUnavailable
deriving DecidableEq, Repr

/-- Host outcomes observed by FileProperties::new. -/
structure OpenHost where
  fsExists : RStr → Bool
  coInitOk : Bool
  bindCtxOk : Bool
  storeOpenOk : Bool

/-- GETPROPERTYSTOREFLAGS, restricted to the values the crate mentions. -/
inductive GETPROPERTYSTOREFLAGS where
  | gpsReadWrite
  | gpsDefault
deriving DecidableEq, Repr

/-- pub struct FileProperties (src/lib.rs lines 117-121): the store handle
and bind context are opaque host handles; their observable behaviour lives in
the host-environment records, so the model keeps only the path. -/
structure FileProperties where
  path : RStr
deriving DecidableEq, Repr

/-- FileProperties::new (src/lib.rs lines 124-146).  Checks existence first
(returning NotFound with no host calls), then CoInitializeEx, CreateBindCtx,
SHGetPropertyStoreFromParsingName in order, each propagated by the
question-mark operator.  On the store-open failure the local bind-context
smart pointer is dropped (COM release) as the function returns, but no
CoUninitialize is executed on any early-return path — exactly as in the
source, where both question-mark returns skip it. -/
def FileProperties.new (host : OpenHost) (path : RStr)
    (flag : Option GETPROPERTYSTOREFLAGS) :
    Except OpenError FileProperties × List HostEvt :=
  if host.fsExists path = false then (.error .notFound, [])
  else
    if host.coInitOk = false then (.error .coInitFailed, [])
    else
      if host.bindCtxOk = false then (.error .bindCtxFailed, [.coInit])
      else
        let _flag := flag.getD .gpsReadWrite
        if host.storeOpenOk = false then
          (.error .storeUnavailable,
            [.coInit, .createBindCtx, .releaseBindCtx])
        else
          (.ok ⟨path⟩, [.coInit, .createBindCtx, .openStore])

/-- impl Drop for FileProperties (src/lib.rs lines 180-187):
self.context.ReleaseBoundObjects().unwrap(); CoUninitialize();
followed by the drop glue releasing the store handle and the bind context
(fields in declaration order).  When ReleaseBoundObjects fails the unwrap
panics: CoUninitialize is skipped, while the fields are still released by the
drop glue during unwind.  Returns the event trace and whether drop panicked. -/
def FileProperties.drop (releaseBoundOk : Bool) (_s : FileProperties) :
    List HostEvt × Bool :=
  if releaseBoundOk then
    ([.releaseBoundObjects, .coUninit, .releaseStore, .releaseBindCtx],
      false)
  else
    ([.releaseStore, .releaseBindCtx], true)

/-- The failure cases of get_prop/set_prop, tagged by the host call that
failed (the source returns std::io::Error values converted from the host
error of that call).  Note there is no encode-failure case: the encoders
return a bare PROPVARIANT and panic on host constructor failure. -/
inductive PropErr where
  | unknownProperty
  | readFailed
  | coercionFailed
  | writeFailed
deriving DecidableEq, Repr

/-- The typed content of one stored property, as the store keeps it. -/
inductive StoredVal where
  | sEmpty
  | sStr (w : WStr)
  | sU32 (n : Nat)
  | sStrVec (ws : List WStr)
deriving DecidableEq, Repr

/-- IPropertyStore::GetValue materialises a caller-owned PROPVARIANT from the
stored value, CoTaskMem-allocating fresh copies of any string payload. -/
def materialize (sv : StoredVal) (h : Heap) : PROPVARIANT × Heap :=
  match sv with
  | .sEmpty => (.empty, h)
  | .sU32 n => (.ui4 (n % 2 ^ 32), h)
  | .sStr w =>
    let (h1, a) := h.alloc (.wstr w)
    (.lpwstr a, h1)
  | .sStrVec ws =>
    let step := ws.foldl
      (fun (acc : Heap × List Nat) w =>
        let (h1, a1) := acc.1.alloc (.wstr w)
        (h1, acc.2 ++ [a1])) (h, [])
    let (h2, arr) := step.1.alloc (.parr step.2)
    (.strVec arr step.2, h2)

/-- Host behaviour observed by get_prop: key resolution
(PSGetPropertyKeyFromName), the raw store read (GetValue, none = host read
failure), and the decode environment. -/
structure GetEnv where
  keyFromName : RStr → Option Nat
  getValue : Nat → Option StoredVal
  dec : DecodeEnv

/-- FileProperties::get_prop (src/lib.rs lines 152-160): resolve the name,
read the raw variant, decode via FromPropVariant; the Ok wrap is
unconditional, so the only error returns are the two question-mark
propagations.  A decode panic aborts the call without producing a value. -/
def FileProperties.get_prop (α : Type) [FromPropVariant α] (env : GetEnv)
    (h : Heap) (name : RStr) : Outcome (Except PropErr α) × Heap :=
  match env.keyFromName name with
  | none => (.ok (.error .unknownProperty), h)
  | some key =>
    match env.getValue key with
    | none => (.ok (.error .readFailed), h)
    | some sv =>
      let m := materialize sv h
      match FromPropVariant.from_prop_variant env.dec m.1 m.2 with
      | (.ok v, h2) => (.ok (.ok v), h2)
      | (.panicked, h2) => (.panicked, h2)

/-- The staged contents of the store, as an association list key to value. -/
abbrev Store : Type := List (Nat × StoredVal)

def storeSet (st : Store) (k : Nat) (v : StoredVal) : Store :=
  match st with
  | [] => [(k, v)]
  | (k0, v0) :: rest =>
    if k0 = k then (k, v) :: rest else (k0, v0) :: storeSet rest k v

def storeGet (st : Store) (k : Nat) : Option StoredVal :=
  match st with
  | [] => none
  | (k0, v0) :: rest => if k0 = k then some v0 else storeGet rest k

/-- SetValue copies the variant's payload into the store by value. -/
def devariant (h : Heap) (pv : PROPVARIANT) : StoredVal :=
  match pv with
  | .empty => .sEmpty
  | .ui4 n => .sU32 (n % 2 ^ 32)
  | .lpwstr a => .sStr (h.liveW a)
  | .strVec _ elems => .sStrVec (elems.map (fun a => h.liveW a))

/-- Host behaviour observed by set_prop: key resolution, the variant
constructor outcome, the freed-memory residue seen through the encoders'
dangling HSTRING pointers, PSCoerceToCanonicalValue (none = coercion
failure), and the SetValue outcome. -/
structure SetEnv where
  keyFromName : RStr → Option Nat
  ctorOk : Bool
  scrub : WStr → WStr
  coerce : Nat → PROPVARIANT → Heap → Option (PROPVARIANT × Heap)
  setValueOk : Bool

/-- FileProperties::set_prop (src/lib.rs lines 162-172): resolve the name,
encode the value (a host constructor failure panics inside to_prop_variant),
coerce to the canonical type for the key, then SetValue; the two host-call
failures after encoding are propagated by the question-mark operator. -/
def FileProperties.set_prop (α : Type) [ToPropVariant α] (env : SetEnv)
    (st : Store) (h : Heap) (name : RStr) (value : α) :
    Outcome (Except PropErr Unit) × Store × Heap :=
  match env.keyFromName name with
  | none => (.ok (.error .unknownProperty), st, h)
  | some key =>
    match ToPropVariant.to_prop_variant env.scrub env.ctorOk value h with
    | (.panicked, h1) => (.panicked, st, h1)
    | (.ok pv, h1) =>
      match env.coerce key pv h1 with
      | none => (.ok (.error .coercionFailed), st, h1)
      | some (pv2, h2) =>
        if env.setValueOk then
          (.ok (.ok ()), storeSet st key (devariant h2 pv2), h2)
        else (.ok (.error .writeFailed), st, h2)

/-- The error case of FileProperties::commit. -/
inductive CommitError where
  | failed
deriving DecidableEq, Repr

/-- FileProperties::commit (src/lib.rs lines 174-177): IPropertyStore::Commit
propagated by the question-mark operator; the staged store contents are
already in place and are not changed by the flush. -/
def FileProperties.commit (commitOk : Bool) (st : Store) :
    Except CommitError Unit × Store :=
  if commitOk then (.ok (), st) else (.error .failed, st)

/-- PSCoerceToCanonicalValue for a string-typed property key: a one-element
string vector (the shape InitPropVariantFromStringAsVector produces) is
normalised in place to a plain VT_LPWSTR — the host reads the element out,
frees the old payload, and allocates the canonical scalar string; a scalar
string is already canonical.  Modelled from the host contract the spec
describes for the coercion step. -/
def coerceCanonicalString (_key : Nat) (pv : PROPVARIANT) (h : Heap) :
    Option (PROPVARIANT × Heap) :=
  match pv with
  | .lpwstr a => some (.lpwstr a, h)
  | .strVec arr elems =>
    match elems with
    | [e] =>
      let w := h.liveW e
      let h1 := propVariantClear (.strVec arr elems) h
      let (h2, a) := h1.alloc (.wstr w)
      some (.lpwstr a, h2)
    | _ => none
  | _ => none

/-- C7: for every path the filesystem reports as nonexistent, open fails with
NotFound before any host resource is acquired: whatever the outcomes of the
later host calls would be, the result is the NotFound error with an empty
event trace — the threading environment is not entered and no binding
context is created. -/
theorem new_nonexistent_notFound_acquires_nothing (host : OpenHost)
    (path : RStr) (flag : Option GETPROPERTYSTOREFLAGS)
    (hne : host.fsExists path = false) :
    FileProperties.new host path flag = (.error .notFound, []) := by
  simp [FileProperties.new, hne]

/-- Witness for C7 at a concrete host and path. -/
theorem new_nonexistent_notFound_acquires_nothing_w :
    FileProperties.new ⟨fun _ => false, true, true, true⟩ [97] none =
      (.error .notFound, []) :=
  new_nonexistent_notFound_acquires_nothing ⟨fun _ => false, true, true, true⟩
    [97] none rfl

/-- C1 (code bug): when the store open fails after the threading environment
was entered and the binding context created, FileProperties::new returns the
StoreUnavailable error and the bind-context pointer is released by its drop,
but CoUninitialize never appears in the trace: the already-entered threading
environment is NOT released on this error path, contrary to the claim. -/
theorem new_storeOpenFailure_env_left_entered :
    FileProperties.new ⟨fun _ => true, true, true, false⟩ [97] none =
      (Except.error OpenError.storeUnavailable,
        [HostEvt.coInit, HostEvt.createBindCtx, HostEvt.releaseBindCtx]) ∧
    (FileProperties.new ⟨fun _ => true, true, true, false⟩ [97] none).2.count
        HostEvt.coUninit = 0 :=
  ⟨rfl, rfl⟩

/-- C6 counterexample: on the destruction path where ReleaseBoundObjects
fails, drop panics and the threading environment is exited zero times, not
exactly once — the claim fails on this destruction path. -/
theorem drop_releaseFailure_skips_uninit_cex :
    (FileProperties.drop false ⟨[97]⟩).2 = true ∧
    (FileProperties.drop false ⟨[97]⟩).1.count HostEvt.coUninit = 0 :=
  ⟨rfl, rfl⟩

/-- C6 amended: a successful construction enters the threading environment
exactly once, and destruction releases the bound objects and then exits the
environment exactly once in that order — but only on the destruction path
where ReleaseBoundObjects succeeds; when it fails, drop panics and the
environment is not exited at all. -/
theorem session_env_pairing_amended (host : OpenHost) (path : RStr)
    (flag : Option GETPROPERTYSTOREFLAGS) (r s : FileProperties)
    (t : List HostEvt)
    (hnew : FileProperties.new host path flag = (.ok r, t)) :
    t.count HostEvt.coInit = 1 ∧
    FileProperties.drop true s =
      ([.releaseBoundObjects, .coUninit, .releaseStore, .releaseBindCtx],
        false) ∧
    (FileProperties.drop false s).1.count HostEvt.coUninit = 0 ∧
    (FileProperties.drop false s).2 = true := by
  unfold FileProperties.new at hnew
  split_ifs at hnew
  all_goals simp only [Prod.mk.injEq] at hnew
  any_goals exact (Except.noConfusion hnew.1)
  obtain ⟨-, ht⟩ := hnew
  subst ht
  exact ⟨rfl, rfl, rfl, rfl⟩

/-- Witness for C6 amended at a concrete all-succeeding host. -/
theorem session_env_pairing_amended_w :
    ([HostEvt.coInit, HostEvt.createBindCtx,
        HostEvt.openStore].count HostEvt.coInit = 1) ∧
    FileProperties.drop true ⟨[97]⟩ =
      ([.releaseBoundObjects, .coUninit, .releaseStore, .releaseBindCtx],
        false) ∧
    (FileProperties.drop false ⟨[97]⟩).1.count HostEvt.coUninit = 0 ∧
    (FileProperties.drop false ⟨[97]⟩).2 = true :=
  session_env_pairing_amended ⟨fun _ => true, true, true, true⟩ [97] none
    ⟨[97]⟩ ⟨[97]⟩ [HostEvt.coInit, HostEvt.createBindCtx, HostEvt.openStore] rfl

/-- C2 (code bug): decoding a string-vector variant releases the freshly
allocated element copy exactly once, but it never clears the received
variant — both payload cells of the variant (element at address 0, backing
array at address 1) are still live after the decode — and it deallocates the
freshly allocated backing array through the Rust allocator rather than the
host free (rustFreed = 1). -/
theorem propVector_decode_leaks_variant_payload :
    propVectorFromPropVariant ⟨fun w => w, true⟩ (PROPVARIANT.strVec 1 [0])
        ⟨[⟨HeapData.wstr [98], true⟩, ⟨HeapData.parr [0], true⟩], 0, 0⟩ =
      (Outcome.ok ⟨[[98]]⟩,
        ⟨[⟨HeapData.wstr [98], true⟩, ⟨HeapData.parr [0], true⟩,
          ⟨HeapData.wstr [98], false⟩, ⟨HeapData.parr [2], false⟩], 1, 0⟩) :=
  rfl

/-- C4: decode failures degrade to defaults with no error surfaced: a variant
with no usable string representation (VT_EMPTY, a number, a vector) decodes
to the empty string; a variant with no u32 representation decodes to 0; and
when the host vector-allocation call fails, the string-vector decode returns
the empty vector (an ok outcome — no panic, no error). -/
theorem decode_absence_defaults_never_fail (scrub : WStr → WStr) (h : Heap)
    (n arr : Nat) (es : List Nat) (pv : PROPVARIANT) :
    (stringFromPropVariant scrub .empty h).1 = [] ∧
    (stringFromPropVariant scrub (.ui4 n) h).1 = [] ∧
    (stringFromPropVariant scrub (.strVec arr es) h).1 = [] ∧
    (u32FromPropVariant .empty h).1 = 0 ∧
    (u32FromPropVariant (.strVec arr es) h).1 = 0 ∧
    (propVectorFromPropVariant ⟨scrub, false⟩ pv h).1 = .ok ⟨[]⟩ :=
  ⟨rfl, rfl, rfl, rfl, rfl, rfl⟩

/-- C10: a variant that does hold a host string, but one whose code units are
not valid UTF-16, still decodes to the empty string instead of panicking or
returning an error: the to_string failure is absorbed by unwrap_or.  Stated
with the identity residue function, i.e. the freed payload still holds its
old code units when the (dangling) read happens, so the conversion genuinely
sees the invalid data. -/
theorem decode_string_invalid_utf16_defaults (h : Heap) (a : Nat)
    (c : HeapCell) (hc : h.cells[a]? = some c)
    (hw : utf16Decode c.data.asW = none) :
    (stringFromPropVariant (fun w => w) (.lpwstr a) h).1 = [] := by
  obtain ⟨hlt, -⟩ := List.getElem?_eq_some.mp hc
  by_cases hl : c.live
  · simp [stringFromPropVariant, propVariantClear, propVariantToStringWithDefault,
      Heap.free, pwstrRead, hc, hl, List.getElem?_set, hlt, hw]
  · simp [stringFromPropVariant, propVariantClear, propVariantToStringWithDefault,
      Heap.free, pwstrRead, hc, hl, hw]

/-- Witness for C10 at a concrete one-cell heap holding a lone high
surrogate. -/
theorem decode_string_invalid_utf16_defaults_w :
    (stringFromPropVariant (fun w => w) (.lpwstr 0)
        ⟨[⟨HeapData.wstr [0xD800], true⟩], 0, 0⟩).1 = [] :=
  decode_string_invalid_utf16_defaults ⟨[⟨HeapData.wstr [0xD800], true⟩], 0, 0⟩
    0 ⟨HeapData.wstr [0xD800], true⟩ rfl rfl

/-- C3 counterexample: when the host variant constructor reports failure, the
String encoder does not return any construction error — its return type has
no error channel — it panics on the unwrap.  The claimed propagation as an
error value is therefore false at this input (stated with the identity
residue function; the failure branch never reads the dangling pointer, so
the residue is irrelevant to it). -/
theorem encode_ctorFailure_panics_not_error_cex :
    (stringToPropVariant (fun w => w) false [97] Heap.empty).1 =
      Outcome.panicked :=
  rfl

/-- C3 amended: a host constructor failure makes each encoder (String, &str,
Vec<&str>) panic rather than return a typed construction error, whatever the
freed-memory residue; the failure is never silently replaced by a default
value — on failure no variant of any kind is returned, and on success the
returned variant holds whatever the host read through the encoder's dangling
HSTRING pointer (the residue of the encoded input), not a default. -/
theorem encode_ctorFailure_panics_never_defaults (scrub : WStr → WStr)
    (v : RStr) (ws : List RStr) (h : Heap) :
    (stringToPropVariant scrub false v h).1 = Outcome.panicked ∧
    (strToPropVariant scrub false v h).1 = Outcome.panicked ∧
    (vecStrToPropVariant scrub false ws h).1 = Outcome.panicked ∧
    stringToPropVariant scrub true v h =
      (.ok (.strVec (h.cells.length + 1) [h.cells.length]),
        ⟨h.cells ++ [⟨.wstr (scrub (utf16Encode v)), true⟩,
          ⟨.parr [h.cells.length], true⟩],
          h.rustFreed, h.badFrees⟩) := by
  refine ⟨rfl, rfl, rfl, ?_⟩
  simp [stringToPropVariant, initPropVariantFromStringAsVector, Heap.alloc]

/-- True exactly when a pipeline outcome is a returned Ok value (no panic,
no returned error). -/
def isOkOk {ε α : Type} : Outcome (Except ε α) → Bool
  | .ok (.ok _) => true
  | _ => false

/-- C5 counterexample: a host on which key resolution succeeds (every name
maps to key 0) and the raw read succeeds (returning a one-element string
vector whose element is a lone high surrogate), yet get_prop for PropVector
does not return Ok: the decode step panics on the unwrap inside the element
loop, so the decode step can contribute a failure. -/
theorem get_prop_decode_panic_cex :
    (FileProperties.get_prop PropVector
        ⟨fun _ => some 0, fun _ => some (.sStrVec [[0xD800]]), ⟨fun w => w, true⟩⟩
        Heap.empty [99]).1 = Outcome.panicked :=
  rfl

/-- C5 amended: get_prop returns the corresponding error exactly when key
resolution fails or the raw store read fails; when both succeed, the String
and u32 reads always return Ok, and the PropVector read returns Ok when the
host vector allocation fails (empty vector) or when the vector holds a valid
single string — but the PropVector decode panics on invalid UTF-16 elements,
so the decode step is not failure-free in general. -/
theorem get_prop_error_source_characterisation (env : GetEnv) (h : Heap)
    (name : RStr) :
    (env.keyFromName name = none →
      (FileProperties.get_prop RStr env h name).1 = .ok (.error .unknownProperty) ∧
      (FileProperties.get_prop Nat env h name).1 = .ok (.error .unknownProperty) ∧
      (FileProperties.get_prop PropVector env h name).1 =
        .ok (.error .unknownProperty)) ∧
    (∀ k, env.keyFromName name = some k → env.getValue k = none →
      (FileProperties.get_prop RStr env h name).1 = .ok (.error .readFailed) ∧
      (FileProperties.get_prop Nat env h name).1 = .ok (.error .readFailed) ∧
      (FileProperties.get_prop PropVector env h name).1 =
        .ok (.error .readFailed)) ∧
    (∀ k sv, env.keyFromName name = some k → env.getValue k = some sv →
      isOkOk (FileProperties.get_prop RStr env h name).1 = true ∧
      isOkOk (FileProperties.get_prop Nat env h name).1 = true ∧
      (env.dec.vecAllocOk = false →
        (FileProperties.get_prop PropVector env h name).1 = .ok (.ok ⟨[]⟩))) ∧
    (∀ k w s, env.keyFromName name = some k →
      env.getValue k = some (.sStr w) → env.dec.vecAllocOk = true →
      utf16Decode w = some s →
      (FileProperties.get_prop PropVector env Heap.empty name).1 =
        .ok (.ok ⟨[s]⟩)) := by
  refine ⟨?_, ?_, ?_, ?_⟩
  · intro hk
    simp [FileProperties.get_prop, hk]
  · intro k hk hv
    simp [FileProperties.get_prop, hk, hv]
  · intro k sv hk hv
    refine ⟨?_, ?_, ?_⟩
    · cases sv <;>
        simp [FileProperties.get_prop, hk, hv, materialize, isOkOk,
          instFromPropVariantString, stringFromPropVariant]
    · cases sv <;>
        simp [FileProperties.get_prop, hk, hv, materialize, isOkOk,
          instFromPropVariantU32, u32FromPropVariant]
    · intro hva
      cases sv <;>
        simp [FileProperties.get_prop, hk, hv, materialize,
          instFromPropVariantVector, propVectorFromPropVariant,
          propVariantToStringVectorAlloc, hva]
  · intro k w s hk hv hva hdec
    simp [FileProperties.get_prop, hk, hv, materialize, instFromPropVariantVector,
      propVectorFromPropVariant, propVariantToStringVectorAlloc, hva, Heap.alloc,
      Heap.liveW, Heap.empty, propVectorLoop, pwstrRead, HeapData.asW, hdec]

/-- Witness for C5 amended: the resolution-failure clause applied at a
concrete host. -/
theorem get_prop_error_source_characterisation_w :
    (FileProperties.get_prop RStr
        ⟨fun _ => none, fun _ => none, ⟨fun w => w, true⟩⟩ Heap.empty [99]).1 =
      .ok (.error .unknownProperty) :=
  ((get_prop_error_source_characterisation
      ⟨fun _ => none, fun _ => none, ⟨fun w => w, true⟩⟩ Heap.empty [99]).1 rfl).1

/-- C8 counterexample: a host on which key resolution succeeds but the
variant constructor fails makes set_prop panic on the unwrap inside
to_prop_variant — the encode failure is not propagated as a typed error (the
error type of the pipeline has no encode-failure case at all). -/
theorem set_prop_encodeFailure_panics_cex :
    (FileProperties.set_prop RStr
        ⟨fun _ => some 0, false, fun w => w, coerceCanonicalString, true⟩
        [] Heap.empty [99] [97]).1 = Outcome.panicked :=
  rfl

/-- C8 amended: set_prop performs resolve, encode, coerce, write in order;
resolution failure, coercion failure and write failure each return the
corresponding typed error and abort the remaining steps (the store is left
unchanged), and the staged store changes only on full success — but an
encode failure panics instead of propagating as a typed error. -/
theorem set_prop_pipeline_steps (env : SetEnv) (st : Store) (h : Heap)
    (name : RStr) (v : RStr) :
    (env.keyFromName name = none →
      FileProperties.set_prop RStr env st h name v =
        (.ok (.error .unknownProperty), st, h)) ∧
    (∀ k, env.keyFromName name = some k → env.ctorOk = false →
      (FileProperties.set_prop RStr env st h name v).1 = .panicked ∧
      (FileProperties.set_prop RStr env st h name v).2.1 = st) ∧
    (∀ k pv1 h1, env.keyFromName name = some k → env.ctorOk = true →
      stringToPropVariant env.scrub true v h = (.ok pv1, h1) →
      (env.coerce k pv1 h1 = none →
        FileProperties.set_prop RStr env st h name v =
          (.ok (.error .coercionFailed), st, h1)) ∧
      (∀ pv2 h2, env.coerce k pv1 h1 = some (pv2, h2) →
        (env.setValueOk = false →
          FileProperties.set_prop RStr env st h name v =
            (.ok (.error .writeFailed), st, h2)) ∧
        (env.setValueOk = true →
          FileProperties.set_prop RStr env st h name v =
            (.ok (.ok ()), storeSet st k (devariant h2 pv2), h2)))) := by
  refine ⟨?_, ?_, ?_⟩
  · intro hk
    simp [FileProperties.set_prop, hk]
  · intro k hk hc
    simp [FileProperties.set_prop, hk, hc, instToPropVariantString,
      stringToPropVariant, initPropVariantFromStringAsVector]
  · intro k pv1 h1 hk hc henc
    have hts : ToPropVariant.to_prop_variant env.scrub env.ctorOk v h =
        (.ok pv1, h1) := by
      rw [hc]
      exact henc
    constructor
    · intro hco
      simp [FileProperties.set_prop, hk, hts, hco]
    · intro pv2 h2 hco
      constructor
      · intro hsv
        simp [FileProperties.set_prop, hk, hts, hco, hsv]
      · intro hsv
        simp [FileProperties.set_prop, hk, hts, hco, hsv]

/-- Witness for C8 amended: the full success path applied at a concrete
host, value and heap (identity residue). -/
theorem set_prop_pipeline_steps_w :
    FileProperties.set_prop RStr
        ⟨fun _ => some 7, true, fun w => w, coerceCanonicalString, true⟩
        [] Heap.empty [99] [97] =
      (.ok (.ok ()), [(7, StoredVal.sStr [97])],
        ⟨[⟨HeapData.wstr [97], false⟩, ⟨HeapData.parr [0], false⟩,
          ⟨HeapData.wstr [97], true⟩], 0, 0⟩) :=
  (((set_prop_pipeline_steps
        ⟨fun _ => some 7, true, fun w => w, coerceCanonicalString, true⟩
        [] Heap.empty [99] [97]).2.2 7 (.strVec 1 [0])
        ⟨[⟨HeapData.wstr [97], true⟩, ⟨HeapData.parr [0], true⟩], 0, 0⟩
        rfl rfl rfl).2 (.lpwstr 2)
        ⟨[⟨HeapData.wstr [97], false⟩, ⟨HeapData.parr [0], false⟩,
          ⟨HeapData.wstr [97], true⟩], 0, 0⟩ rfl).2 rfl

/-- The C9 round-trip pipeline on a single string property, exactly as the
crate composes it: set_prop stages the value (encode as a one-string vector,
coerce to the canonical scalar string for the key, SetValue), commit flushes,
and get_prop reads it back through the String decode.  The freed-memory
residue observed by every dangling read in the run — the encoder's read of
the dropped HSTRING temporary and the decode's read after PropVariantClear —
is the one `scrub` parameter, i.e. one allocator behaviour for the whole
run. -/
def roundTripString (scrub : WStr → WStr) : Outcome (Except PropErr RStr) :=
  let env : SetEnv := ⟨fun _ => some 7, true, scrub, coerceCanonicalString, true⟩
  let r1 := FileProperties.set_prop RStr env [] Heap.empty [99] [97]
  let r2 := FileProperties.commit true r1.2.1
  let genv : GetEnv := ⟨fun _ => some 7, fun k => storeGet r2.2 k, ⟨scrub, true⟩⟩
  (FileProperties.get_prop RStr genv r1.2.2 [99]).1

/-- C9 (code bug): the round trip set_prop; commit; get_prop on the string
"a" succeeds, but the value it returns is freed-memory residue: the encoder
reads the staged string through a pointer to the dropped HSTRING temporary,
and the String decode reads the result through a pointer whose payload
PropVariantClear has already freed.  With freed memory still holding its old
code units the round trip returns "a", while with an allocator that scrubs
freed memory it returns "" — the claimed "returns exactly v" does not hold
of the code. -/
theorem roundtrip_reads_freed_memory :
    roundTripString (fun w => w) = .ok (.ok [97]) ∧
    roundTripString (fun _ => []) = .ok (.ok []) :=
  ⟨rfl, rfl⟩
